import Mathlib

/-!
# Verification of the model-viewer frame scheduler and renderer

A shallow embedding of `src/app/application.rs` and `src/render/renderer.rs`.
Wall-clock instants and durations are modelled as rationals (seconds); the
floating-point matrix arithmetic of `Renderer::generate_matrix` is modelled
over the reals.  GPU handles (device, queue, surface) are external
collaborators: the embedding records the commands issued to them.
-/

namespace ModelViewer

/-! ## Frame scheduler: `Application::run`, `Event::RedrawEventsCleared` branch
    (src/app/application.rs lines 47-57) -/

/-- `winit::event_loop::ControlFlow`, restricted to the variants this program
sets.  `waitUntil t` is `ControlFlow::WaitUntil(t)`; `poll` stands for the
control flow being left untouched by the branch. -/
inductive ControlFlow where
  | poll : ControlFlow
  | waitUntil : ℚ → ControlFlow
  | exitLoop : ControlFlow
deriving DecidableEq, Repr

/-- Outcome of one `RedrawEventsCleared` tick: whether `request_redraw` was
called, the value of `last_update_inst` afterwards, and the control flow set. -/
structure TickResult where
  redrawRequested : Bool
  last_update_inst : ℚ
  control : ControlFlow
deriving DecidableEq, Repr

/-- The `Event::RedrawEventsCleared` handler of `Application::run`
(application.rs lines 47-57).  `target_frametime` is
`Duration::from_secs_f64(1.0 / frame_rate)`; `time_since_last_frame` is
`last_update_inst.elapsed()` at the current instant `now`.  If the interval
has elapsed the window is asked to redraw and the reference instant is reset
to now; otherwise the loop is told to wake up at
`now + target_frametime - time_since_last_frame`. -/
def redrawEventsCleared (frame_rate : ℚ) (last_update_inst now : ℚ) : TickResult :=
  let target_frametime := 1 / frame_rate
  let time_since_last_frame := now - last_update_inst
  if target_frametime ≤ time_since_last_frame then
    { redrawRequested := true
      last_update_inst := now
      control := ControlFlow.poll }
  else
    { redrawRequested := false
      last_update_inst := last_update_inst
      control := ControlFlow.waitUntil (now + target_frametime - time_since_last_frame) }

/-- The instants at which `request_redraw` fires, along a run of
`RedrawEventsCleared` ticks at the given instants, threading
`last_update_inst` exactly as the handler does. -/
def redrawTimes (frame_rate : ℚ) : ℚ → List ℚ → List ℚ
  | _, [] => []
  | last_update_inst, t :: ts =>
    let r := redrawEventsCleared frame_rate last_update_inst t
    if r.redrawRequested then t :: redrawTimes frame_rate r.last_update_inst ts
    else redrawTimes frame_rate r.last_update_inst ts

/-- Consecutive elements of the list are at least `gap` apart. -/
def Spaced (gap : ℚ) : List ℚ → Prop
  | [] => True
  | [_] => True
  | a :: b :: rest => a + gap ≤ b ∧ Spaced gap (b :: rest)

/-! ## Frame statistics: `Application::run`, `Event::RedrawRequested` branch,
    lines 59-70 -/

/-- The scheduler's rolling frame statistics: `last_frame_inst`,
`frame_count` and `accum_time` from `Application::run` (lines 36-37). -/
structure FrameTimer where
  last_frame_inst : ℚ
  frame_count : ℕ
  accum_time : ℚ
deriving DecidableEq, Repr

/-- Result of the statistics prolog of a `RedrawRequested` event: the updated
timer state and, when frame 100 was reached, the printed average frame time
in milliseconds. -/
structure StatsResult where
  timer : FrameTimer
  reported : Option ℚ
deriving DecidableEq, Repr

/-- Lines 60-70 of application.rs: accumulate the wall-clock time since the
previous redraw, reset `last_frame_inst`, bump `frame_count`; when the count
reaches 100, print `accum_time * 1000.0 / frame_count` (milliseconds) and
zero both the accumulator and the counter. -/
def redrawStats (st : FrameTimer) (now : ℚ) : StatsResult :=
  let accum_time := st.accum_time + (now - st.last_frame_inst)
  let frame_count := st.frame_count + 1
  if frame_count = 100 then
    { timer := { last_frame_inst := now, frame_count := 0, accum_time := 0 }
      reported := some (accum_time * 1000 / (frame_count : ℚ)) }
  else
    { timer := { last_frame_inst := now, frame_count := frame_count, accum_time := accum_time }
      reported := none }

/-- Run the statistics prolog over a sequence of redraw instants, collecting
every reported average. -/
def runRedraws : FrameTimer → List ℚ → FrameTimer × List ℚ
  | st, [] => (st, [])
  | st, t :: ts =>
    let r := redrawStats st t
    let rest := runRedraws r.timer ts
    (rest.1, r.reported.toList ++ rest.2)

/-- `n` redraw instants spaced exactly `d` apart, starting `d` after `t0`. -/
def uniformTimes (t0 d : ℚ) : ℕ → List ℚ
  | 0 => []
  | n + 1 => (t0 + d) :: uniformTimes (t0 + d) d n

/-! ## Cube mesh data: `Renderer::init_cube` (renderer.rs lines 88-128) -/

/-- `cube_positions` from init_cube: 8 corner positions of a unit cube
centred at the origin, flattened as 24 floats (x, y, z per vertex). -/
def cube_positions : List ℚ :=
  [-1/2, -1/2, -1/2,
    1/2, -1/2, -1/2,
   -1/2, -1/2,  1/2,
    1/2, -1/2,  1/2,
   -1/2,  1/2, -1/2,
    1/2,  1/2, -1/2,
   -1/2,  1/2,  1/2,
    1/2,  1/2,  1/2]

/-- `index_data` from init_cube: the 36 vertex indices uploaded to the index
buffer. -/
def index_data : List ℕ :=
  [4, 5, 1, 4, 1, 0, 5, 7, 3, 5, 3, 1, 7, 6, 2, 7, 2, 3, 6, 4, 0, 6, 0, 2,
   6, 7, 5, 6, 5, 4, 0, 1, 3, 0, 3, 4]

/-- Group an index list into consecutive triples, one per triangle. -/
def toTriangles : List ℕ → List (ℕ × ℕ × ℕ)
  | a :: b :: c :: rest => (a, b, c) :: toTriangles rest
  | _ => []

/-! ## Renderer state (renderer.rs lines 15-27) and fixed-function pipeline
    state (lines 185-215) -/

/-- `wgpu::PrimitiveTopology`. -/
inductive PrimitiveTopology where
  | pointList | lineList | lineStrip | triangleList | triangleStrip
deriving DecidableEq, Repr

/-- `wgpu::FrontFace`. -/
inductive FrontFace where
  | ccw | cw
deriving DecidableEq, Repr

/-- `wgpu::Face`. -/
inductive Face where
  | front | back
deriving DecidableEq, Repr

/-- `wgpu::IndexFormat`. -/
inductive IndexFormat where
  | uint16 | uint32
deriving DecidableEq, Repr

/-- `wgpu::PrimitiveState` as filled in by init_cube (lines 195-203). -/
structure PrimitiveState where
  topology : PrimitiveTopology
  strip_index_format : Option IndexFormat
  front_face : FrontFace
  cull_mode : Option Face
  clamp_depth : Bool
  conservative : Bool
deriving DecidableEq, Repr

/-- `wgpu::MultisampleState` (lines 205-209); `mask` is the u64 value
`!0`. -/
structure MultisampleState where
  count : ℕ
  mask : ℕ
  alpha_to_coverage_enabled : Bool
deriving DecidableEq, Repr

/-- The observable fixed-function state of the `RenderPipelineDescriptor`
built by init_cube (lines 185-215).  `depth_stencil` is `None` there, so its
payload type is irrelevant and taken as `Unit`. -/
structure RenderPipelineDesc where
  primitive : PrimitiveState
  depth_stencil : Option Unit
  multisample : MultisampleState
deriving DecidableEq, Repr

/-- The pipeline descriptor constructed by init_cube. -/
def cubePipeline : RenderPipelineDesc :=
  { primitive :=
      { topology := PrimitiveTopology.triangleStrip
        strip_index_format := some IndexFormat.uint32
        front_face := FrontFace.ccw
        cull_mode := some Face.back
        clamp_depth := false
        conservative := false }
    depth_stencil := none
    multisample :=
      { count := 1
        mask := 2 ^ 64 - 1
        alpha_to_coverage_enabled := false } }

/-- The bind group built by init_cube (lines 163-170): binding 0 holds the
uniform buffer, whose contents are the 16 floats of the column-major
transform matrix. -/
structure BindGroupDesc where
  binding : ℕ
  uniformData : List ℝ

/-- The fields of `Renderer` (lines 15-27) that the claims observe.  The
GPU handles (instance, surface, adapter, device, queue) are external
collaborators; of the surface configuration the width and height are kept,
since init_cube and the reconfigure-on-failure path read them. -/
structure RendererState where
  surface_config_width : ℕ
  surface_config_height : ℕ
  active_pipeline : Option RenderPipelineDesc
  vertex_buffer : Option (List ℚ)
  index_buffer : Option (List ℕ)
  index_count : ℕ
  bind_group : Option BindGroupDesc

/-- `Renderer::new` (lines 45-86): after the GPU setup, every optional
resource field is `None` and `index_count` is 0.  The width and height come
from the window's inner size. -/
def Renderer.new (width height : ℕ) : RendererState :=
  { surface_config_width := width
    surface_config_height := height
    active_pipeline := none
    vertex_buffer := none
    index_buffer := none
    index_count := 0
    bind_group := none }

/-! ## Surface acquisition with one reconfigure-and-retry
    (renderer.rs lines 225-236 / application.rs lines 72-83) -/

/-- Result of one `surface.get_current_texture()` call: a frame handle or an
error. -/
inductive AcquireResult where
  | ok : ℕ → AcquireResult
  | err : AcquireResult
deriving DecidableEq, Repr

/-- A Rust panic, tagged by the `unwrap`/`expect` that raised it. -/
inductive PanicReason where
  | acquireFailedTwice
  | unwrapActivePipeline
  | unwrapBindGroup
  | unwrapIndexBuffer
  | unwrapVertexBuffer
deriving DecidableEq, Repr

/-- A command issued to the GPU / windowing collaborators during a draw.
`writeBuffer` is the buffer-mutation operation of the graphics API
(`Queue::write_buffer`); the program never issues it. -/
inductive RenderCmd where
  | configureSurface (width height : ℕ)
  | createView
  | beginRenderPass (r g b a : ℚ) (hasDepthAttachment : Bool)
  | pushDebugGroup (msg : String)
  | setPipeline (p : RenderPipelineDesc)
  | setBindGroup (slot : ℕ) (g : BindGroupDesc)
  | setIndexBuffer (data : List ℕ) (fmt : IndexFormat)
  | setVertexBuffer (slot : ℕ) (data : List ℚ)
  | popDebugGroup
  | insertDebugMarker (msg : String)
  | drawIndexed (first last : ℕ) (baseVertex : ℤ) (firstInst lastInst : ℕ)
  | submit
  | present
  | writeBuffer (data : List ℚ)

/-- The acquisition prologue shared by `Renderer::draw_cube` (lines
225-236) and the redraw branch of `Application::run` (lines 72-83): try
`get_current_texture`; on error, reconfigure the surface with the stored
configuration and try once more, turning a second error into the
`expect` panic.  `o n` is the outcome of the (n+1)-th acquisition attempt.
Returns the acquired frame together with the commands issued. -/
def acquireFrame (r : RendererState) (o : ℕ → AcquireResult) :
    Except PanicReason (ℕ × List RenderCmd) :=
  match o 0 with
  | AcquireResult.ok f => Except.ok (f, [])
  | AcquireResult.err =>
    match o 1 with
    | AcquireResult.ok f =>
        Except.ok (f, [RenderCmd.configureSurface r.surface_config_width
          r.surface_config_height])
    | AcquireResult.err => Except.error PanicReason.acquireFailedTwice

/-- How many acquisition attempts `acquireFrame` makes for a given oracle. -/
def acquireAttempts (o : ℕ → AcquireResult) : ℕ :=
  match o 0 with
  | AcquireResult.ok _ => 1
  | AcquireResult.err => 2

/-! ## The transform matrix: `Renderer::generate_matrix` (renderer.rs lines
    277-286) and `OPENGL_TO_WGPU_MATRIX` (lines 8-14)

The f32 arithmetic of cgmath is modelled over ℝ.  A `cgmath::Matrix4` is a
`Matrix (Fin 4) (Fin 4) ℝ` in the usual (row, column) convention; cgmath
stores columns, so `Matrix4::new(a, b, c, d, ...)` lists the entries
column-major and `AsRef<[f32; 16]>` reads them back column-major. -/

/-- `cgmath::Vector3` / `cgmath::Point3` over ℝ. -/
structure Vec3 where
  x : ℝ
  y : ℝ
  z : ℝ

/-- Componentwise difference (`Point3 - Point3` in cgmath). -/
def Vec3.sub (a b : Vec3) : Vec3 :=
  ⟨a.x - b.x, a.y - b.y, a.z - b.z⟩

/-- `cgmath::InnerSpace::dot`. -/
def Vec3.dot (a b : Vec3) : ℝ :=
  a.x * b.x + a.y * b.y + a.z * b.z

/-- `cgmath::Vector3::cross`. -/
def Vec3.cross (a b : Vec3) : Vec3 :=
  ⟨a.y * b.z - a.z * b.y, a.z * b.x - a.x * b.z, a.x * b.y - a.y * b.x⟩

/-- `cgmath::InnerSpace::magnitude`: the Euclidean norm. -/
noncomputable def Vec3.magnitude (a : Vec3) : ℝ :=
  Real.sqrt (a.dot a)

/-- `cgmath::InnerSpace::normalize`: scale to unit length. -/
noncomputable def Vec3.normalize (a : Vec3) : Vec3 :=
  ⟨a.x / a.magnitude, a.y / a.magnitude, a.z / a.magnitude⟩

/-- `OPENGL_TO_WGPU_MATRIX` (renderer.rs lines 8-14); the 16 literals of the
source are column-major, so as a (row, column) matrix row 2 is
(0, 0, 0.5, 0.5): it maps OpenGL clip z in [-1, 1] to wgpu clip z in
[0, 1]. -/
def OPENGL_TO_WGPU_MATRIX : Matrix (Fin 4) (Fin 4) ℝ :=
  Matrix.of
    ![![1, 0, 0, 0],
      ![0, 1, 0, 0],
      ![0, 0, 0.5, 0.5],
      ![0, 0, 0, 1]]

/-- `cgmath::perspective(Deg(fovy_deg), aspect, near, far)`: the OpenGL
perspective projection with `f = cot(fovy / 2)` (fovy in radians). -/
noncomputable def perspective (fovy_deg aspect near far : ℝ) :
    Matrix (Fin 4) (Fin 4) ℝ :=
  let θ := fovy_deg * Real.pi / 180 / 2
  let f := Real.cos θ / Real.sin θ
  Matrix.of
    ![![f / aspect, 0, 0, 0],
      ![0, f, 0, 0],
      ![0, 0, (far + near) / (near - far), 2 * far * near / (near - far)],
      ![0, 0, -1, 0]]

/-- `cgmath::Matrix4::look_at_rh(eye, center, up)`: with
`f = normalize(center - eye)`, `s = normalize(f × up)`, `u = s × f`, the
view matrix whose rows are s, u, -f with translations -eye·s, -eye·u,
eye·f. -/
noncomputable def look_at_rh (eye center up : Vec3) :
    Matrix (Fin 4) (Fin 4) ℝ :=
  let f := (center.sub eye).normalize
  let s := (f.cross up).normalize
  let u := s.cross f
  Matrix.of
    ![![s.x, s.y, s.z, -(eye.dot s)],
      ![u.x, u.y, u.z, -(eye.dot u)],
      ![-f.x, -f.y, -f.z, eye.dot f],
      ![0, 0, 0, 1]]

/-- `Renderer::generate_matrix` (lines 277-286): perspective projection at
45° vertical field of view, the given aspect ratio, near 1.0 and far 10.0;
right-handed look-at from (1.5, -5.0, 3.0) toward the origin with +Z up;
composed as `mx_correction * mx_projection * mx_view`. -/
noncomputable def generate_matrix (aspect_ratio : ℝ) :
    Matrix (Fin 4) (Fin 4) ℝ :=
  let mx_projection := perspective 45 aspect_ratio 1 10
  let mx_view := look_at_rh ⟨1.5, -5, 3⟩ ⟨0, 0, 0⟩ ⟨0, 0, 1⟩
  let mx_correction := OPENGL_TO_WGPU_MATRIX
  mx_correction * mx_projection * mx_view

/-- The product in the order the specification states it: projection ×
view × clip-space correction. -/
noncomputable def projection_view_correction (aspect_ratio : ℝ) :
    Matrix (Fin 4) (Fin 4) ℝ :=
  perspective 45 aspect_ratio 1 10 *
    look_at_rh ⟨1.5, -5, 3⟩ ⟨0, 0, 0⟩ ⟨0, 0, 1⟩ *
    OPENGL_TO_WGPU_MATRIX

/-- `mx_total.as_ref() : &[f32; 16]` (line 155): the 16 entries of a cgmath
matrix in column-major order, as uploaded to the uniform buffer. -/
def matToColMajor (M : Matrix (Fin 4) (Fin 4) ℝ) : List ℝ :=
  [M 0 0, M 1 0, M 2 0, M 3 0,
   M 0 1, M 1 1, M 2 1, M 3 1,
   M 0 2, M 1 2, M 2 2, M 3 2,
   M 0 3, M 1 3, M 2 3, M 3 3]

/-! ## `Renderer::init_cube` (lines 88-221) and `Renderer::draw_cube`
    (lines 223-275) -/

/-- `Renderer::init_cube`: uploads the cube vertex and index buffers, the
uniform buffer holding `generate_matrix(width / height)` column-major, the
bind group at binding 0, and the render pipeline, storing every handle
(lines 216-220). -/
noncomputable def Renderer.init_cube (r : RendererState) : RendererState :=
  { r with
    active_pipeline := some cubePipeline
    vertex_buffer := some cube_positions
    index_buffer := some index_data
    index_count := index_data.length
    bind_group := some
      { binding := 0
        uniformData := matToColMajor (generate_matrix
          ((r.surface_config_width : ℝ) / (r.surface_config_height : ℝ))) } }

/-- `Renderer::draw_cube` (lines 223-275): acquire a frame (reconfiguring
and retrying once on failure), create a view, record one render pass that
clears to (0.1, 0.1, 0.6, 1.0) with no depth attachment, set the pipeline,
bind group 0, the index buffer as Uint32 and vertex buffer 0 — each
unwrapped from its optional field in that order — issue
`draw_indexed(0..index_count, 0, 0..1)`, submit, and present.  The value is
the command trace, or the panic that ends the process. -/
def Renderer.draw_cube (renderer : RendererState) (o : ℕ → AcquireResult) :
    Except PanicReason (List RenderCmd) :=
  match acquireFrame renderer o with
  | Except.error p => Except.error p
  | Except.ok (_, pre) =>
    match renderer.active_pipeline with
    | none => Except.error PanicReason.unwrapActivePipeline
    | some pl =>
      match renderer.bind_group with
      | none => Except.error PanicReason.unwrapBindGroup
      | some bg =>
        match renderer.index_buffer with
        | none => Except.error PanicReason.unwrapIndexBuffer
        | some ib =>
          match renderer.vertex_buffer with
          | none => Except.error PanicReason.unwrapVertexBuffer
          | some vb =>
            Except.ok (pre ++
              [RenderCmd.createView,
               RenderCmd.beginRenderPass 0.1 0.1 0.6 1 false,
               RenderCmd.pushDebugGroup "preparing data for drawing...",
               RenderCmd.setPipeline pl,
               RenderCmd.setBindGroup 0 bg,
               RenderCmd.setIndexBuffer ib IndexFormat.uint32,
               RenderCmd.setVertexBuffer 0 vb,
               RenderCmd.popDebugGroup,
               RenderCmd.insertDebugMarker "drawing",
               RenderCmd.drawIndexed 0 renderer.index_count 0 0 1,
               RenderCmd.submit,
               RenderCmd.present])

/-- The `Event::RedrawRequested` rendering branch of `Application::run`
(application.rs lines 71-125), translated independently of
`Renderer.draw_cube`: acquire with one reconfigure-and-retry (lines 72-83),
create the view (84-86), record the render pass clearing to
(0.1, 0.1, 0.6, 1.0) with no depth attachment (92-108), set pipeline, bind
group, index buffer and vertex buffer, unwrapping each optional field
(109-119), pop the debug group, mark, `draw_indexed(0..index_count, 0,
0..1)` (120-122), submit (124) and present (125). -/
def redrawRequestedRender (r : RendererState) (o : ℕ → AcquireResult) :
    Except PanicReason (List RenderCmd) :=
  match acquireFrame r o with
  | Except.error p => Except.error p
  | Except.ok (_, pre) =>
    match r.active_pipeline with
    | none => Except.error PanicReason.unwrapActivePipeline
    | some pl =>
      match r.bind_group with
      | none => Except.error PanicReason.unwrapBindGroup
      | some bg =>
        match r.index_buffer with
        | none => Except.error PanicReason.unwrapIndexBuffer
        | some ib =>
          match r.vertex_buffer with
          | none => Except.error PanicReason.unwrapVertexBuffer
          | some vb =>
            Except.ok (pre ++
              [RenderCmd.createView,
               RenderCmd.beginRenderPass 0.1 0.1 0.6 1 false,
               RenderCmd.pushDebugGroup "preparing data for drawing...",
               RenderCmd.setPipeline pl,
               RenderCmd.setBindGroup 0 bg,
               RenderCmd.setIndexBuffer ib IndexFormat.uint32,
               RenderCmd.setVertexBuffer 0 vb,
               RenderCmd.popDebugGroup,
               RenderCmd.insertDebugMarker "drawing",
               RenderCmd.drawIndexed 0 r.index_count 0 0 1,
               RenderCmd.submit,
               RenderCmd.present])

/-- The commands a draw emits (empty when the draw panics). -/
def drawEmitted (r : RendererState) (o : ℕ → AcquireResult) : List RenderCmd :=
  match Renderer.draw_cube r o with
  | Except.ok cmds => cmds
  | Except.error _ => []

/-- An operation on the renderer: `init_cube`, or a draw with a given
acquisition oracle. -/
inductive RendererOp where
  | init : RendererOp
  | draw : (ℕ → AcquireResult) → RendererOp

/-- Effect of an operation on the renderer's fields.  `draw_cube` takes the
renderer by shared reference (`&Renderer`) and the redraw branch of `run`
only reads `self.renderer`, so a draw changes no field. -/
noncomputable def applyOp (r : RendererState) (op : RendererOp) : RendererState :=
  match op with
  | RendererOp.init => Renderer.init_cube r
  | RendererOp.draw _ => r

/-- Run a sequence of operations from a starting state. -/
noncomputable def runOps (r : RendererState) (ops : List RendererOp) : RendererState :=
  List.foldl applyOp r ops

/-- All four optional resource fields are `None`. -/
def uninitializedState (r : RendererState) : Prop :=
  r.active_pipeline = none ∧ r.vertex_buffer = none ∧
    r.index_buffer = none ∧ r.bind_group = none

/-- All four optional resource fields are `Some`. -/
def readyState (r : RendererState) : Prop :=
  r.active_pipeline.isSome ∧ r.vertex_buffer.isSome ∧
    r.index_buffer.isSome ∧ r.bind_group.isSome

theorem spaced_cons {gap a : ℚ} {rest : List ℚ}
    (hmem : ∀ x ∈ rest, a + gap ≤ x) (hrest : Spaced gap rest) :
    Spaced gap (a :: rest) := by
  cases rest with
  | nil => trivial
  | cons b rest2 => exact ⟨hmem b (List.mem_cons_self b rest2), hrest⟩

theorem redrawTimes_lower_bound (frame_rate : ℚ) (hF : 0 < frame_rate) :
    ∀ (ts : List ℚ) (l : ℚ),
      (∀ x ∈ redrawTimes frame_rate l ts, l + 1 / frame_rate ≤ x) ∧
        Spaced (1 / frame_rate) (redrawTimes frame_rate l ts) := by
  intro ts
  induction ts with
  | nil => intro l; exact ⟨by simp [redrawTimes], trivial⟩
  | cons t ts ih =>
    intro l
    by_cases h : 1 / frame_rate ≤ t - l
    · have hc : frame_rate⁻¹ ≤ t - l := by rwa [one_div] at h
      have hreq : redrawTimes frame_rate l (t :: ts) =
          t :: redrawTimes frame_rate t ts := by
        simp [redrawTimes, redrawEventsCleared, hc]
      have hmem : ∀ x ∈ redrawTimes frame_rate t ts, l + 1 / frame_rate ≤ x := by
        intro x hx
        have h1 := (ih t).1 x hx
        have hFpos : 0 < 1 / frame_rate := by positivity
        linarith
      refine hreq ▸ ⟨?_, spaced_cons (ih t).1 (ih t).2⟩
      intro x hx
      rcases List.mem_cons.mp hx with hx | hx
      · subst hx; linarith
      · exact hmem x hx
    · have hc : ¬frame_rate⁻¹ ≤ t - l := by rwa [one_div] at h
      have hskip : redrawTimes frame_rate l (t :: ts) =
          redrawTimes frame_rate l ts := by
        simp [redrawTimes, redrawEventsCleared, hc]
      exact hskip ▸ ih l


theorem runRedraws_uniform (d : ℚ) :
    ∀ (n : ℕ) (c : ℕ) (a t0 : ℚ), c + n = 100 → 1 ≤ n →
      runRedraws ⟨t0, c, a⟩ (uniformTimes t0 d n) =
        (⟨t0 + n * d, 0, 0⟩, [(a + n * d) * 1000 / 100]) := by
  intro n
  induction n with
  | zero => intro c a t0 hc hn; omega
  | succ n ih =>
    intro c a t0 hc _
    by_cases h100 : c + 1 = 100
    · have hn0 : n = 0 := by omega
      subst hn0
      simp [uniformTimes, runRedraws, redrawStats, h100]
    · have hn1 : 1 ≤ n := by omega
      have hrec := ih (c + 1) (a + d) (t0 + d) (by omega) hn1
      simp [uniformTimes, runRedraws, redrawStats, h100, hrec]
      constructor
      · ring
      · ring

/-- C1: for every frame rate F > 0, a `RedrawEventsCleared` tick requests a
redraw exactly when the time since `last_update_inst` is at least 1/F
seconds, resetting the reference instant to now on request; otherwise it
sets the control flow to wake at now plus the remaining time; and along any
run of ticks, consecutive redraw requests are at least 1/F seconds apart. -/
theorem C1_scheduler_never_redraws_faster_than_frame_rate
    (F l t : ℚ) (hF : 0 < F) (ts : List ℚ) :
    ((redrawEventsCleared F l t).redrawRequested = true ↔ 1 / F ≤ t - l) ∧
      ((redrawEventsCleared F l t).redrawRequested = true →
        (redrawEventsCleared F l t).last_update_inst = t) ∧
      ((redrawEventsCleared F l t).redrawRequested = false →
        (redrawEventsCleared F l t).control =
          ControlFlow.waitUntil (t + 1 / F - (t - l))) ∧
      Spaced (1 / F) (redrawTimes F l ts) := by
  refine ⟨?_, ?_, ?_, (redrawTimes_lower_bound F hF ts l).2⟩ <;>
    by_cases h : F⁻¹ ≤ t - l <;>
      simp [redrawEventsCleared, one_div, h]

/-- Witness for C1 at F = 60, reference instant 0 and ticks at 0, 1/120 and
1/60 seconds. -/
theorem C1_witness :
    (0 : ℚ) < 60 ∧
      (((redrawEventsCleared 60 0 (1 / 60)).redrawRequested = true ↔
          1 / 60 ≤ (1 / 60 : ℚ) - 0) ∧
        ((redrawEventsCleared 60 0 (1 / 60)).redrawRequested = true →
          (redrawEventsCleared 60 0 (1 / 60)).last_update_inst = 1 / 60) ∧
        ((redrawEventsCleared 60 0 (1 / 60)).redrawRequested = false →
          (redrawEventsCleared 60 0 (1 / 60)).control =
            ControlFlow.waitUntil (1 / 60 + 1 / 60 - ((1 / 60 : ℚ) - 0))) ∧
        Spaced (1 / 60) (redrawTimes 60 0 [0, 1 / 120, 1 / 60])) :=
  ⟨by norm_num,
    C1_scheduler_never_redraws_faster_than_frame_rate 60 0 (1 / 60) (by norm_num)
      [0, 1 / 120, 1 / 60]⟩

/-- C2: when the frame counter stands at 99, the next `RedrawRequested`
event reports `accum_time * 1000 / 100` milliseconds (the accumulated
elapsed time divided by 100) and leaves both the counter and the
accumulator at zero; in particular 100 redraws spaced exactly 16 ms apart
report an average of 16 ms. -/
theorem C2_avg_frame_time_every_100_frames (st : FrameTimer) (now t0 : ℚ)
    (h99 : st.frame_count = 99) :
    (redrawStats st now).reported =
        some ((st.accum_time + (now - st.last_frame_inst)) * 1000 / 100) ∧
      (redrawStats st now).timer.frame_count = 0 ∧
      (redrawStats st now).timer.accum_time = 0 ∧
      runRedraws ⟨t0, 0, 0⟩ (uniformTimes t0 (16 / 1000) 100) =
        (⟨t0 + 100 * (16 / 1000), 0, 0⟩, [16]) := by
  refine ⟨by simp [redrawStats, h99], by simp [redrawStats, h99],
    by simp [redrawStats, h99], ?_⟩
  have h := runRedraws_uniform (16 / 1000) 100 0 0 t0 (by norm_num) (by norm_num)
  rw [h]
  norm_num

/-- Witness for C2: counter at 99, previous frame instant 0, current
instant 1. -/
theorem C2_witness :
    (FrameTimer.mk 0 99 0).frame_count = 99 ∧
      ((redrawStats ⟨0, 99, 0⟩ 1).reported =
          some ((0 + ((1 : ℚ) - 0)) * 1000 / 100) ∧
        (redrawStats ⟨0, 99, 0⟩ 1).timer.frame_count = 0 ∧
        (redrawStats ⟨0, 99, 0⟩ 1).timer.accum_time = 0 ∧
        runRedraws ⟨0, 0, 0⟩ (uniformTimes 0 (16 / 1000) 100) =
          (⟨0 + 100 * (16 / 1000), 0, 0⟩, [16])) :=
  ⟨rfl, C2_avg_frame_time_every_100_frames ⟨0, 99, 0⟩ 1 0 rfl⟩


/-- C3: on a draw, a failed first acquisition is followed by exactly one
surface reconfiguration (with the stored width and height) and exactly one
retry, after which the draw proceeds with the acquired frame or panics
fatally; a successful first acquisition reconfigures nothing; at most two
attempts are ever made, and the outcome depends on nothing beyond the first
two attempts — there is no unbounded retry loop. -/
theorem C3_acquire_reconfigures_and_retries_once
    (r : RendererState) (o : ℕ → AcquireResult) :
    acquireAttempts o ≤ 2 ∧
      (∀ f, o 0 = AcquireResult.ok f → acquireFrame r o = Except.ok (f, [])) ∧
      (∀ f, o 0 = AcquireResult.err → o 1 = AcquireResult.ok f →
        acquireFrame r o = Except.ok (f,
          [RenderCmd.configureSurface r.surface_config_width
            r.surface_config_height])) ∧
      (o 0 = AcquireResult.err → o 1 = AcquireResult.err →
        acquireFrame r o = Except.error PanicReason.acquireFailedTwice) ∧
      (∀ o2 : ℕ → AcquireResult, o 0 = o2 0 → o 1 = o2 1 →
        acquireFrame r o = acquireFrame r o2 ∧ acquireAttempts o = acquireAttempts o2) := by
  refine ⟨?_, ?_, ?_, ?_, ?_⟩
  · cases h0 : o 0 <;> simp [acquireAttempts, h0]
  · intro f h0; simp [acquireFrame, h0]
  · intro f h0 h1; simp [acquireFrame, h0, h1]
  · intro h0 h1; simp [acquireFrame, h0, h1]
  · intro o2 h0 h1
    unfold acquireFrame acquireAttempts
    rw [← h0, ← h1]
    exact ⟨rfl, rfl⟩

/-- Witness for C3: a renderer of size 800 × 600 whose first acquisition
fails and second succeeds with frame 7. -/
theorem C3_witness :
    acquireFrame (Renderer.new 800 600)
        (fun n => if n = 0 then AcquireResult.err else AcquireResult.ok 7) =
      Except.ok (7, [RenderCmd.configureSurface 800 600]) :=
  ((C3_acquire_reconfigures_and_retries_once (Renderer.new 800 600)
    (fun n => if n = 0 then AcquireResult.err else AcquireResult.ok 7)).2.2.1
    7 rfl rfl)


/-- C4: the uploaded index list has exactly 36 entries, every entry is a
vertex index below 8, each of the 8 vertices occurs in at least one of the
12 consecutive-triple triangles, and the vertex list holds 8 positions of 3
floats each. -/
theorem C4_cube_index_and_vertex_data :
    index_data.length = 36 ∧
      (∀ i ∈ index_data, i < 8) ∧
      (toTriangles index_data).length = 12 ∧
      (∀ v < 8, ∃ t ∈ toTriangles index_data,
        v = t.1 ∨ v = t.2.1 ∨ v = t.2.2) ∧
      cube_positions.length = 8 * 3 := by
  decide


theorem applyOp_all_none_or_all_some (r : RendererState) (op : RendererOp)
    (h : uninitializedState r ∨ readyState r) :
    uninitializedState (applyOp r op) ∨ readyState (applyOp r op) := by
  cases op with
  | init =>
    right
    simp [applyOp, Renderer.init_cube, readyState]
  | draw o => exact h

/-- C6: starting from `new`, every sequence of `init_cube` and draw
operations leaves the renderer's four optional resource fields either all
`None` or all `Some` — never mixed. -/
theorem C6_resource_fields_all_none_or_all_some (w h : ℕ)
    (ops : List RendererOp) :
    uninitializedState (runOps (Renderer.new w h) ops) ∨
      readyState (runOps (Renderer.new w h) ops) := by
  suffices hgen : ∀ (l : List RendererOp) (r : RendererState),
      uninitializedState r ∨ readyState r →
        uninitializedState (runOps r l) ∨ readyState (runOps r l) by
    exact hgen ops (Renderer.new w h) (Or.inl ⟨rfl, rfl, rfl, rfl⟩)
  intro l
  induction l with
  | nil => intro r h; exact h
  | cons op l ih =>
    intro r h
    exact ih (applyOp r op) (applyOp_all_none_or_all_some r op h)

theorem foldl_draws_fixed (s : RendererState) (os : List (ℕ → AcquireResult)) :
    List.foldl (fun st o => applyOp st (RendererOp.draw o)) s os = s := by
  induction os generalizing s with
  | nil => rfl
  | cons o os ih => exact ih s

theorem drawEmitted_no_writeBuffer (r : RendererState) (o : ℕ → AcquireResult)
    (d : List ℚ) : RenderCmd.writeBuffer d ∉ drawEmitted r o := by
  unfold drawEmitted Renderer.draw_cube acquireFrame
  cases o 0 <;> cases o 1 <;>
    cases r.active_pipeline <;> cases r.bind_group <;>
      cases r.index_buffer <;> cases r.vertex_buffer <;> simp

/-- C7: after `init_cube`, any number of draws leaves the vertex buffer,
index buffer and uniform-carrying bind group exactly as `init_cube` set
them, and no draw ever emits the graphics API's buffer-write command. -/
theorem C7_draws_never_mutate_buffers (r : RendererState)
    (os : List (ℕ → AcquireResult)) (o : ℕ → AcquireResult) (d : List ℚ) :
    let s := List.foldl (fun st oo => applyOp st (RendererOp.draw oo))
      (Renderer.init_cube r) os
    s.vertex_buffer = some cube_positions ∧
      s.index_buffer = some index_data ∧
      s.bind_group = some
        { binding := 0
          uniformData := matToColMajor (generate_matrix
            ((r.surface_config_width : ℝ) / (r.surface_config_height : ℝ))) } ∧
      s.vertex_buffer = (Renderer.init_cube r).vertex_buffer ∧
      s.index_buffer = (Renderer.init_cube r).index_buffer ∧
      s.bind_group = (Renderer.init_cube r).bind_group ∧
      RenderCmd.writeBuffer d ∉ drawEmitted s o := by
  intro s
  have hs : s = Renderer.init_cube r := foldl_draws_fixed _ os
  rw [hs]
  exact ⟨rfl, rfl, rfl, rfl, rfl, rfl, drawEmitted_no_writeBuffer _ o d⟩

/-- C8: the rendering sequence of the `RedrawRequested` branch of
`Application::run` is operation-for-operation the one of
`Renderer::draw_cube` on the same renderer state and acquisition
outcomes. -/
theorem C8_redraw_branch_equals_draw_cube :
    ∀ (r : RendererState) (o : ℕ → AcquireResult),
      redrawRequestedRender r o = Renderer.draw_cube r o :=
  fun _ _ => rfl

/-- C9: the pipeline stored by `init_cube` has triangle-strip topology,
back-face culling, counter-clockwise front face, no depth/stencil state and
multisample count 1. -/
theorem C9_pipeline_fixed_function_state (r : RendererState) :
    (Renderer.init_cube r).active_pipeline = some cubePipeline ∧
      cubePipeline.primitive.topology = PrimitiveTopology.triangleStrip ∧
      cubePipeline.primitive.cull_mode = some Face.back ∧
      cubePipeline.primitive.front_face = FrontFace.ccw ∧
      cubePipeline.depth_stencil = none ∧
      cubePipeline.multisample.count = 1 :=
  ⟨rfl, rfl, rfl, rfl, rfl, rfl⟩

/-- C10: drawing on a renderer fresh from `new` — init never called, all
optional fields still `None` — panics at the unwrap of `active_pipeline`,
the first unwrap the pass records, provided the frame acquisition itself
succeeded. -/
theorem C10_draw_before_init_panics_at_pipeline_unwrap
    (w h : ℕ) (o : ℕ → AcquireResult) (f : ℕ)
    (h0 : o 0 = AcquireResult.ok f) :
    Renderer.draw_cube (Renderer.new w h) o =
      Except.error PanicReason.unwrapActivePipeline := by
  simp [Renderer.draw_cube, acquireFrame, h0, Renderer.new]

/-- Witness for C10: an 800 × 600 renderer and an always-succeeding
acquisition oracle. -/
theorem C10_witness :
    (fun _ : ℕ => AcquireResult.ok 0) 0 = AcquireResult.ok 0 ∧
      Renderer.draw_cube (Renderer.new 800 600) (fun _ => AcquireResult.ok 0) =
        Except.error PanicReason.unwrapActivePipeline :=
  ⟨rfl, C10_draw_before_init_panics_at_pipeline_unwrap 800 600
    (fun _ => AcquireResult.ok 0) 0 rfl⟩

/-- C5 counterexample: at aspect ratio 1 the matrix the code computes,
`correction * projection * view` (renderer.rs line 285), differs from the
product `projection × view × correction` stated by the claim — entry
(3, 2) is -3/√36.25 in the former and half that in the latter. -/
theorem C5_counterexample :
    generate_matrix 1 ≠ projection_view_correction 1 := by
  intro h
  have h32 := Matrix.ext_iff.mpr h 3 2
  simp [generate_matrix, projection_view_correction, perspective, look_at_rh,
    OPENGL_TO_WGPU_MATRIX, Vec3.normalize, Vec3.magnitude, Vec3.dot, Vec3.sub,
    Vec3.cross, Matrix.mul_apply, Fin.sum_univ_four] at h32
  have hs0 : Real.sqrt (1.5 * 1.5 + 5 * 5 + 3 * 3) ≠ 0 :=
    ne_of_gt (Real.sqrt_pos.mpr (by norm_num))
  field_simp at h32
  norm_num at h32

/-- C5 (amended): the uniform matrix uploaded by `init_cube` is the product
clip-space correction × projection × view — the correction applied last —
where the projection is the 45° vertical-field-of-view perspective with
near 1.0 and far 10.0 at the surface's aspect ratio, and the view is the
right-handed look-at from (1.5, -5.0, 3.0) toward the origin with +Z up;
it is stored column-major in the bind group's uniform buffer. -/
theorem C5_uniform_matrix_is_correction_mul_projection_mul_view
    (r : RendererState) :
    (Renderer.init_cube r).bind_group = some
      { binding := 0
        uniformData := matToColMajor
          (OPENGL_TO_WGPU_MATRIX *
            perspective 45
              ((r.surface_config_width : ℝ) / (r.surface_config_height : ℝ))
              1 10 *
            look_at_rh ⟨1.5, -5, 3⟩ ⟨0, 0, 0⟩ ⟨0, 0, 1⟩) } :=
  rfl
